import Mathlib

/-!
# Transport controller and waveform painting of `MainComponent`

A shallow embedding of `Source/MainComponent.cpp`.  The component's own members
(playback state, the two button flags, the owned reader source) are fields of a
record.  The JUCE objects the component talks to are not part of the repository;
they are represented by what the component does to them (a log of the calls made on
`transportSource`, the position it holds, the source handed to it) and by what the
component asks of them (`isPlaying()`, `getNumChannels()`, `getTotalLength()`,
`getCurrentPosition()`), which enter as arguments.
-/

namespace MainComponent

/-! ## Data model -/

/-- The enumeration `transportSourceState_t` used by the switch of
`transportSourceStateChanged`. -/
inductive transportSourceState_t where
  | Stopped
  | Starting
  | Playing
  | Stopping
  deriving DecidableEq, Repr

open transportSourceState_t

/-- Handle of a file picked in the chooser. -/
abbrev AudioFile := Nat

/-- Handle of a reader made by the format manager. -/
abbrev AudioFormatReader := Nat

/-- Calls the component makes on `transportSource`. -/
inductive TransportCall where
  | start
  | stop
  | setPosition (seconds : ℚ)
  | setSource (reader : AudioFormatReader)
  deriving DecidableEq, Repr

/-- The members of `MainComponent` that the event handlers read or write, together
with the visible part of the host objects they act on. -/
structure Component where
  /-- Member `transportSourceState`. -/
  transportSourceState : transportSourceState_t
  /-- Enabled flag of `playAudioButton`. -/
  playAudioButtonEnabled : Bool
  /-- Enabled flag of `stopAudioButton`. -/
  stopAudioButtonEnabled : Bool
  /-- Position held by `transportSource`, in seconds. -/
  transportPosition : ℚ
  /-- Calls made on `transportSource` so far, oldest first. -/
  transportCalls : List TransportCall
  /-- Source currently handed to `transportSource`. -/
  transportSourceReader : Option AudioFormatReader
  /-- Member `playSource`, the owned reader source. -/
  playSource : Option AudioFormatReader
  /-- Source handed to `thumbnail`. -/
  thumbnailSource : Option AudioFile
  /-- Interval of the running timer in milliseconds, if `startTimer` was called. -/
  timerInterval : Option Nat
  /-- Number of `repaint()` requests made. -/
  repaints : Nat
  deriving DecidableEq, Repr

/-- The object a change notification comes from. -/
inductive ChangeBroadcaster where
  | transportSource
  | thumbnail
  | other
  deriving DecidableEq, Repr

/-! ## Transport controller -/

/-- State of the members set by the constructor: `transportSourceState (Stopped)`,
`playAudioButton.setEnabled (true)`, `stopAudioButton.setEnabled (false)`; nothing has
been opened and no call has been made on the transport. -/
def construct : Component :=
  { transportSourceState := Stopped
    playAudioButtonEnabled := true
    stopAudioButtonEnabled := false
    transportPosition := 0
    transportCalls := []
    transportSourceReader := none
    playSource := none
    thumbnailSource := none
    timerInterval := none
    repaints := 0 }

/-- Function `MainComponent::transportSourceStateChanged`. -/
def transportSourceStateChanged (state : transportSourceState_t) (c : Component) :
    Component :=
  if state ≠ c.transportSourceState then
    let c1 := { c with transportSourceState := state }
    match c1.transportSourceState with
    | Stopped =>
      { c1 with
        playAudioButtonEnabled := true
        transportPosition := 0
        transportCalls := c1.transportCalls ++ [TransportCall.setPosition 0] }
    | Playing =>
      { c1 with playAudioButtonEnabled := true }
    | Starting =>
      { c1 with
        playAudioButtonEnabled := false
        stopAudioButtonEnabled := true
        transportCalls := c1.transportCalls ++ [TransportCall.start] }
    | Stopping =>
      { c1 with
        playAudioButtonEnabled := true
        stopAudioButtonEnabled := false
        transportCalls := c1.transportCalls ++ [TransportCall.stop] }
  else c

/-- Function `MainComponent::playAudioButtonClicked`. -/
def playAudioButtonClicked (c : Component) : Component :=
  transportSourceStateChanged Starting c

/-- Function `MainComponent::stopAudioButtonClicked`. -/
def stopAudioButtonClicked (c : Component) : Component :=
  transportSourceStateChanged Stopping c

/-- Function `MainComponent::thumbnailChanged`. -/
def thumbnailChanged (c : Component) : Component :=
  { c with repaints := c.repaints + 1 }

/-- Function `MainComponent::changeListenerCallback`; `isPlaying` is the answer of
`transportSource.isPlaying()` at the time of the call. -/
def changeListenerCallback (source : ChangeBroadcaster) (isPlaying : Bool)
    (c : Component) : Component :=
  let c1 :=
    if source = ChangeBroadcaster.transportSource then
      if isPlaying then transportSourceStateChanged Playing c
      else transportSourceStateChanged Stopped c
    else c
  if source = ChangeBroadcaster.thumbnail then thumbnailChanged c1 else c1

/-- The four events that reach the transport controller. -/
inductive Event where
  | UserPlay
  | UserStop
  | DeviceReportsPlaying
  | DeviceReportsStopped
  deriving DecidableEq, Repr

/-- The handler each event runs: the two button callbacks, and the change
notification of `transportSource` with `isPlaying()` true or false. -/
def handle (e : Event) (c : Component) : Component :=
  match e with
  | Event.UserPlay => playAudioButtonClicked c
  | Event.UserStop => stopAudioButtonClicked c
  | Event.DeviceReportsPlaying =>
    changeListenerCallback ChangeBroadcaster.transportSource true c
  | Event.DeviceReportsStopped =>
    changeListenerCallback ChangeBroadcaster.transportSource false c

/-- Handle a sequence of events, first to last. -/
def run (es : List Event) (c : Component) : Component :=
  es.foldl (fun acc e => handle e acc) c

/-- The state each event asks `transportSourceStateChanged` for. -/
def Event.target : Event → transportSourceState_t
  | Event.UserPlay => Starting
  | Event.UserStop => Stopping
  | Event.DeviceReportsPlaying => Playing
  | Event.DeviceReportsStopped => Stopped

/-- Transition table of section 4.1 of the specification, row by row: `some next` for
a pair of current state and event that has a row (the last row, "UserPlay while not
Stopped", keeps the state), `none` for a pair without a row. -/
def specTable : transportSourceState_t → Event → Option transportSourceState_t
  | Stopped, Event.UserPlay => some Starting
  | Starting, Event.DeviceReportsPlaying => some Playing
  | Playing, Event.UserStop => some Stopping
  | Playing, Event.DeviceReportsStopped => some Stopped
  | Stopping, Event.DeviceReportsStopped => some Stopped
  | Starting, Event.UserPlay => some Starting
  | Playing, Event.UserPlay => some Playing
  | Stopping, Event.UserPlay => some Stopping
  | _, _ => none

/-! ## Opening a file -/

/-- Function `MainComponent::openTextButtonClicked`.  `chosen` is the outcome of
`chooser.browseForFileToOpen()` with `chooser.getResult()`, `createReaderFor` is
`formatManager.createReaderFor` (`none` for `nullptr`), and `afterSetSource` gives the
position `transportSource` holds once `setSource` has returned, from the position it
held before: `AudioTransportSource` belongs to the host library, whose documentation
says that `setSource` resets the position to 0; a theorem that relies on this says
so. -/
def openTextButtonClicked (chosen : Option AudioFile)
    (createReaderFor : AudioFile → Option AudioFormatReader) (afterSetSource : ℚ → ℚ)
    (c : Component) : Component :=
  match chosen with
  | none => c
  | some audioFile =>
    match createReaderFor audioFile with
    | none => c
    | some reader =>
      let c1 := { c with timerInterval := some 40 }
      let c2 := { c1 with
        transportSourceReader := some reader
        transportPosition := afterSetSource c1.transportPosition
        transportCalls := c1.transportCalls ++ [TransportCall.setSource reader] }
      let c3 := { c2 with thumbnailSource := some audioFile }
      let c4 := transportSourceStateChanged Stopped c3
      { c4 with playSource := some reader }

/-- Error kinds the specification gives `open`. -/
inductive OpenError where
  | Unreadable
  deriving DecidableEq, Repr

/-- What a call of `openTextButtonClicked` hands to its caller, path by path.  The
function is declared `void` and no path returns a value, throws or records a failure,
so the caller receives no error on any of them. -/
def openTextButtonClicked_reported (chosen : Option AudioFile)
    (createReaderFor : AudioFile → Option AudioFormatReader) : Option OpenError :=
  match chosen with
  | none => none
  | some audioFile =>
    match createReaderFor audioFile with
    | none => none
    | some _ => none

/-! ## Painting -/

/-- A `juce::Rectangle<int>`: position of the top left corner, width and height.  The
sizes of a window are far from the limits of `int`, so the coordinates are integers
without wrap-around. -/
structure Rectangle where
  x : ℤ
  y : ℤ
  w : ℤ
  h : ℤ
  deriving DecidableEq, Repr

/-- Method `getX`. -/
def Rectangle.getX (r : Rectangle) : ℤ := r.x

/-- Method `getY`. -/
def Rectangle.getY (r : Rectangle) : ℤ := r.y

/-- Method `getWidth`. -/
def Rectangle.getWidth (r : Rectangle) : ℤ := r.w

/-- Method `getBottom`. -/
def Rectangle.getBottom (r : Rectangle) : ℤ := r.y + r.h

/-- Colours the paint code selects. -/
inductive Colour where
  | background
  | darkgrey
  | white
  | red
  | black
  deriving DecidableEq, Repr

/-- Text placements the paint code asks for. -/
inductive Justification where
  | centred
  deriving DecidableEq, Repr

/-- Calls made on the `juce::Graphics` object.  A coordinate of `drawLine` is `none`
when the `float` handed over is not a finite number. -/
inductive DrawInstruction where
  | fillAll (colour : Colour)
  | setColour (colour : Colour)
  | fillRect (area : Rectangle)
  | drawFittedText (text : String) (area : Rectangle) (justification : Justification)
      (maximumNumberOfLines : Nat)
  | drawChannels (area : Rectangle) (startTime endTime verticalZoom : ℚ)
  | drawLine (x1 : Option ℚ) (y1 : ℚ) (x2 : Option ℚ) (y2 : ℚ) (thickness : ℚ)
  deriving DecidableEq, Repr

/-- Division of two `float` values: the rounded quotient, and no finite number when
the divisor is zero.  `fl` rounds a real number to `float`. -/
def floatDiv (fl : ℚ → ℚ) (a b : ℚ) : Option ℚ :=
  if b = 0 then none else some (fl (a / b))

/-- The local `drawPosition` of `paintIfFileLoaded`:
`(audioPosition / audioLength) * (float) getWidth() + (float) getX()`, every cast and
every operation rounded by `fl`. -/
def drawPosition (fl : ℚ → ℚ) (thumbnailBounds : Rectangle)
    (audioLength audioPosition : ℚ) : Option ℚ :=
  (floatDiv fl audioPosition audioLength).map
    (fun q => fl (fl (q * fl thumbnailBounds.getWidth) + fl thumbnailBounds.getX))

/-- Function `MainComponent::paintIfNoFileLoaded`. -/
def paintIfNoFileLoaded (thumbnailBounds : Rectangle) : List DrawInstruction :=
  [ DrawInstruction.setColour Colour.darkgrey,
    DrawInstruction.fillRect thumbnailBounds,
    DrawInstruction.setColour Colour.white,
    DrawInstruction.drawFittedText "No File Loaded" thumbnailBounds
      Justification.centred 1 ]

/-- Function `MainComponent::paintIfFileLoaded`.  `totalLength` is
`thumbnail.getTotalLength()` and `currentPosition` is
`transportSource.getCurrentPosition()`; `fl` rounds to `float` (the identity gives
exact arithmetic). -/
def paintIfFileLoaded (fl : ℚ → ℚ) (thumbnailBounds : Rectangle)
    (totalLength currentPosition : ℚ) : List DrawInstruction :=
  let audioLength := fl totalLength
  let audioPosition := fl currentPosition
  let position := drawPosition fl thumbnailBounds audioLength audioPosition
  [ DrawInstruction.setColour Colour.white,
    DrawInstruction.fillRect thumbnailBounds,
    DrawInstruction.setColour Colour.red,
    DrawInstruction.drawChannels thumbnailBounds 0 audioLength 1,
    DrawInstruction.setColour Colour.black,
    DrawInstruction.drawLine position (fl thumbnailBounds.getY) position
      (fl thumbnailBounds.getBottom) 2 ]

/-- Function `MainComponent::paint` for a component of the given width and height;
`numChannels` is `thumbnail.getNumChannels()`. -/
def paint (fl : ℚ → ℚ) (width height : ℤ) (numChannels : Nat)
    (totalLength currentPosition : ℚ) : List DrawInstruction :=
  let thumbnailBounds : Rectangle := ⟨10, 600, width - 20, height - 120⟩
  DrawInstruction.fillAll Colour.background ::
    (if numChannels = 0 then paintIfNoFileLoaded thumbnailBounds
     else paintIfFileLoaded fl thumbnailBounds totalLength currentPosition)

/-- Rounding to `float` in the range the playhead arithmetic stays in: on values
between 1 and 2^100 the result is within one part in 2^24 of the argument. -/
def RoundsLikeFloat (fl : ℚ → ℚ) : Prop :=
  ∀ x : ℚ, 1 ≤ x → x ≤ 2 ^ 100 → |fl x - x| ≤ x / 2 ^ 24

/-! ## Transport controller: theorems -/

theorem transportSourceStateChanged_same (c : Component) :
    transportSourceStateChanged c.transportSourceState c = c := by
  simp [transportSourceStateChanged]

theorem transportSourceStateChanged_state (t : transportSourceState_t) (c : Component) :
    (transportSourceStateChanged t c).transportSourceState = t := by
  by_cases h : t = c.transportSourceState
  · subst h; simp [transportSourceStateChanged]
  · cases t <;> simp [transportSourceStateChanged, h]

theorem handle_eq (e : Event) (c : Component) :
    handle e c = transportSourceStateChanged e.target c := by
  cases e <;> simp [handle, Event.target, playAudioButtonClicked, stopAudioButtonClicked,
    changeListenerCallback]

theorem transportSourceStateChanged_of_ne (t : transportSourceState_t) (c : Component)
    (h : t ≠ c.transportSourceState) :
    (t = Stopped →
      (transportSourceStateChanged t c).playAudioButtonEnabled = true
      ∧ (transportSourceStateChanged t c).stopAudioButtonEnabled = c.stopAudioButtonEnabled
      ∧ (transportSourceStateChanged t c).transportPosition = 0
      ∧ (transportSourceStateChanged t c).transportCalls
          = c.transportCalls ++ [TransportCall.setPosition 0])
    ∧ (t = Playing →
      (transportSourceStateChanged t c).playAudioButtonEnabled = true
      ∧ (transportSourceStateChanged t c).stopAudioButtonEnabled = c.stopAudioButtonEnabled
      ∧ (transportSourceStateChanged t c).transportPosition = c.transportPosition
      ∧ (transportSourceStateChanged t c).transportCalls = c.transportCalls)
    ∧ (t = Starting →
      (transportSourceStateChanged t c).playAudioButtonEnabled = false
      ∧ (transportSourceStateChanged t c).stopAudioButtonEnabled = true
      ∧ (transportSourceStateChanged t c).transportPosition = c.transportPosition
      ∧ (transportSourceStateChanged t c).transportCalls
          = c.transportCalls ++ [TransportCall.start])
    ∧ (t = Stopping →
      (transportSourceStateChanged t c).playAudioButtonEnabled = true
      ∧ (transportSourceStateChanged t c).stopAudioButtonEnabled = false
      ∧ (transportSourceStateChanged t c).transportPosition = c.transportPosition
      ∧ (transportSourceStateChanged t c).transportCalls
          = c.transportCalls ++ [TransportCall.stop]) := by
  cases t <;> simp [transportSourceStateChanged, h]

/-- The flags after any event satisfy the per-state table of the switch, provided they
did before. -/
theorem handle_flags (e : Event) (c : Component)
    (h : (c.transportSourceState = Starting →
            c.playAudioButtonEnabled = false ∧ c.stopAudioButtonEnabled = true)
        ∧ (c.transportSourceState = Playing → c.playAudioButtonEnabled = true)
        ∧ (c.transportSourceState = Stopping →
            c.playAudioButtonEnabled = true ∧ c.stopAudioButtonEnabled = false)
        ∧ (c.transportSourceState = Stopped → c.playAudioButtonEnabled = true)) :
    ((handle e c).transportSourceState = Starting →
        (handle e c).playAudioButtonEnabled = false
        ∧ (handle e c).stopAudioButtonEnabled = true)
    ∧ ((handle e c).transportSourceState = Playing →
        (handle e c).playAudioButtonEnabled = true)
    ∧ ((handle e c).transportSourceState = Stopping →
        (handle e c).playAudioButtonEnabled = true
        ∧ (handle e c).stopAudioButtonEnabled = false)
    ∧ ((handle e c).transportSourceState = Stopped →
        (handle e c).playAudioButtonEnabled = true) := by
  rw [handle_eq]
  by_cases hne : e.target = c.transportSourceState
  · rw [hne, transportSourceStateChanged_same]; exact h
  · have hs := transportSourceStateChanged_state e.target c
    have hf := transportSourceStateChanged_of_ne e.target c hne
    rw [hs]
    refine ⟨fun ht => ?_, fun ht => ?_, fun ht => ?_, fun ht => ?_⟩
    · exact ⟨(hf.2.2.1 ht).1, (hf.2.2.1 ht).2.1⟩
    · exact (hf.2.1 ht).1
    · exact ⟨(hf.2.2.2 ht).1, (hf.2.2.2 ht).2.1⟩
    · exact (hf.1 ht).1

theorem run_append_single (es : List Event) (e : Event) (c : Component) :
    run (es ++ [e]) c = handle e (run es c) := by
  simp [run, List.foldl_append]

/-- C1: a request for the state the controller is already in changes nothing: the whole
component, the log of transport calls included, stays as it was, so no start, stop or
position reset is issued; requesting the same target twice is the same as requesting it
once; and a Play click while in Starting is such a request. -/
theorem requestState_idempotent (c : Component) (state : transportSourceState_t)
    (h : state = c.transportSourceState) :
    transportSourceStateChanged state c = c
    ∧ (transportSourceStateChanged state c).transportCalls = c.transportCalls
    ∧ (∀ t, transportSourceStateChanged t (transportSourceStateChanged t c)
          = transportSourceStateChanged t c)
    ∧ (state = Starting →
        playAudioButtonClicked c = c
        ∧ (playAudioButtonClicked c).transportCalls = c.transportCalls) := by
  subst h
  refine ⟨transportSourceStateChanged_same c, by rw [transportSourceStateChanged_same],
    fun t => ?_, fun hs => ?_⟩
  · have := transportSourceStateChanged_same (transportSourceStateChanged t c)
    rw [transportSourceStateChanged_state] at this
    exact this
  · have : playAudioButtonClicked c = c := by
      unfold playAudioButtonClicked
      rw [← hs]; exact transportSourceStateChanged_same c
    exact ⟨this, by rw [this]⟩

/-- Instance of C1: a second Play click right after the first one issues no second
start. -/
theorem requestState_idempotent_witness :
    (playAudioButtonClicked construct).transportSourceState = Starting
    ∧ playAudioButtonClicked (playAudioButtonClicked construct)
        = playAudioButtonClicked construct
    ∧ (playAudioButtonClicked (playAudioButtonClicked construct)).transportCalls
        = [TransportCall.start] :=
  ⟨by decide,
   ((requestState_idempotent (playAudioButtonClicked construct) Starting
      (by decide)).2.2.2 rfl).1,
   by rw [((requestState_idempotent (playAudioButtonClicked construct) Starting
      (by decide)).2.2.2 rfl).1]; decide⟩

/-- C2, as stated, fails: after Play and the device's report the controller is
Playing, and a Play click there is not rejected; the state becomes Starting, the Play
button is disabled and a second start is issued. -/
theorem userPlay_while_playing_not_rejected :
    (run [Event.UserPlay, Event.DeviceReportsPlaying] construct).transportSourceState
      = Playing
    ∧ (playAudioButtonClicked
        (run [Event.UserPlay, Event.DeviceReportsPlaying] construct)).transportSourceState
      = Starting
    ∧ (run [Event.UserPlay, Event.DeviceReportsPlaying] construct).playAudioButtonEnabled
      = true
    ∧ (playAudioButtonClicked
        (run [Event.UserPlay, Event.DeviceReportsPlaying] construct)).playAudioButtonEnabled
      = false
    ∧ (run [Event.UserPlay, Event.DeviceReportsPlaying] construct).transportCalls
      = [TransportCall.start]
    ∧ (playAudioButtonClicked
        (run [Event.UserPlay, Event.DeviceReportsPlaying] construct)).transportCalls
      = [TransportCall.start, TransportCall.start] := by
  decide

/-- C2, amended: when the controller is not Stopped, a Play click changes nothing if
the state is Starting; if the state is Playing or Stopping the click is carried out:
the state becomes Starting, Play is disabled, Stop is enabled and one start is issued. -/
theorem userPlay_when_not_stopped (c : Component)
    (h : c.transportSourceState ≠ Stopped) :
    (c.transportSourceState = Starting ∧ playAudioButtonClicked c = c)
    ∨ ((c.transportSourceState = Playing ∨ c.transportSourceState = Stopping)
        ∧ (playAudioButtonClicked c).transportSourceState = Starting
        ∧ (playAudioButtonClicked c).playAudioButtonEnabled = false
        ∧ (playAudioButtonClicked c).stopAudioButtonEnabled = true
        ∧ (playAudioButtonClicked c).transportCalls
            = c.transportCalls ++ [TransportCall.start]) := by
  by_cases hs : c.transportSourceState = Starting
  · left
    refine ⟨hs, ?_⟩
    unfold playAudioButtonClicked
    rw [← hs]; exact transportSourceStateChanged_same c
  · right
    unfold playAudioButtonClicked
    have hf := (transportSourceStateChanged_of_ne Starting c (Ne.symm hs)).2.2.1 rfl
    refine ⟨?_, transportSourceStateChanged_state _ _, hf.1, hf.2.1, hf.2.2.2⟩
    cases hc : c.transportSourceState <;> simp_all

/-- Instance of the amended C2 at the Stopping state reached by Play, report, Stop. -/
theorem userPlay_when_not_stopped_witness :
    (run [Event.UserPlay, Event.DeviceReportsPlaying, Event.UserStop]
        construct).transportSourceState ≠ Stopped
    ∧ (playAudioButtonClicked
        (run [Event.UserPlay, Event.DeviceReportsPlaying, Event.UserStop]
          construct)).transportSourceState = Starting :=
  ⟨by decide,
   (userPlay_when_not_stopped
      (run [Event.UserPlay, Event.DeviceReportsPlaying, Event.UserStop] construct)
      (by decide)).elim (fun hl => absurd hl.1 (by decide)) (fun hr => hr.2.1)⟩

/-- C3, as stated, fails: the pair of Stopped and a report that the device plays has no
row in the table, yet the freshly constructed controller leaves Stopped for Playing. -/
theorem deviceReportsPlaying_while_stopped :
    specTable Stopped Event.DeviceReportsPlaying = none
    ∧ construct.transportSourceState = Stopped
    ∧ (changeListenerCallback ChangeBroadcaster.transportSource true
        construct).transportSourceState = Playing
    ∧ (handle Event.DeviceReportsPlaying construct).transportSourceState
        ≠ construct.transportSourceState := by
  decide

/-- C3, amended: for a pair of state and event without a row in the table, the state
after the event is the state the event asks for; it equals the state before only for
Stopped with a report of stopping, Playing with a report of playing, and Stopping with
a Stop click. -/
theorem unexpected_event (c : Component) (e : Event)
    (h : specTable c.transportSourceState e = none) :
    (handle e c).transportSourceState = e.target
    ∧ ((handle e c).transportSourceState = c.transportSourceState ↔
        (c.transportSourceState = Stopped ∧ e = Event.DeviceReportsStopped)
        ∨ (c.transportSourceState = Playing ∧ e = Event.DeviceReportsPlaying)
        ∨ (c.transportSourceState = Stopping ∧ e = Event.UserStop)) := by
  have hs : (handle e c).transportSourceState = e.target := by
    rw [handle_eq]; exact transportSourceStateChanged_state _ _
  refine ⟨hs, ?_⟩
  rw [hs]
  cases hc : c.transportSourceState <;> cases e <;>
    simp_all [specTable, Event.target]

/-- Instance of the amended C3: a Stop click on the freshly constructed controller. -/
theorem unexpected_event_witness :
    specTable construct.transportSourceState Event.UserStop = none
    ∧ (handle Event.UserStop construct).transportSourceState = Stopping :=
  ⟨by decide, (unexpected_event construct Event.UserStop (by decide)).1⟩

/-- C4, as stated, fails: a report that the device plays takes the freshly constructed
controller to Playing with the Stop button still disabled. -/
theorem playing_with_stop_disabled :
    (run [Event.DeviceReportsPlaying] construct).transportSourceState = Playing
    ∧ (run [Event.DeviceReportsPlaying] construct).stopAudioButtonEnabled = false := by
  decide

/-- An event that ends in Playing leaves the Stop flag as it was. -/
theorem handle_playing_stop (e : Event) (c : Component)
    (h : (handle e c).transportSourceState = Playing) :
    (handle e c).stopAudioButtonEnabled = c.stopAudioButtonEnabled := by
  rw [handle_eq] at h ⊢
  by_cases hne : e.target = c.transportSourceState
  · rw [hne, transportSourceStateChanged_same]
  · rw [transportSourceStateChanged_state] at h
    exact ((transportSourceStateChanged_of_ne e.target c hne).2.1 h).2.1

/-- C4, amended: after any sequence of events on the freshly constructed controller, in
Starting Play is disabled and Stop is enabled, in Playing Play is enabled, in Stopping
Play is enabled and Stop is disabled, in Stopped Play is enabled.  In Playing the Stop
flag is the one held before the event that led there: an event ending in Playing
leaves the flag as it was, so Stop is enabled when Playing is entered from Starting. -/
theorem flags_after_events (es : List Event) (e : Event) :
    ((run es construct).transportSourceState = Starting →
        (run es construct).playAudioButtonEnabled = false
        ∧ (run es construct).stopAudioButtonEnabled = true)
    ∧ ((run es construct).transportSourceState = Playing →
        (run es construct).playAudioButtonEnabled = true)
    ∧ ((run es construct).transportSourceState = Stopping →
        (run es construct).playAudioButtonEnabled = true
        ∧ (run es construct).stopAudioButtonEnabled = false)
    ∧ ((run es construct).transportSourceState = Stopped →
        (run es construct).playAudioButtonEnabled = true)
    ∧ ((run (es ++ [e]) construct).transportSourceState = Playing →
        (run (es ++ [e]) construct).stopAudioButtonEnabled
          = (run es construct).stopAudioButtonEnabled)
    ∧ ((run es construct).transportSourceState = Starting →
        (run (es ++ [e]) construct).transportSourceState = Playing →
        (run (es ++ [e]) construct).stopAudioButtonEnabled = true) := by
  have rows : ∀ l : List Event,
      ((run l construct).transportSourceState = Starting →
          (run l construct).playAudioButtonEnabled = false
          ∧ (run l construct).stopAudioButtonEnabled = true)
      ∧ ((run l construct).transportSourceState = Playing →
          (run l construct).playAudioButtonEnabled = true)
      ∧ ((run l construct).transportSourceState = Stopping →
          (run l construct).playAudioButtonEnabled = true
          ∧ (run l construct).stopAudioButtonEnabled = false)
      ∧ ((run l construct).transportSourceState = Stopped →
          (run l construct).playAudioButtonEnabled = true) := by
    intro l
    induction l using List.reverseRecOn with
    | nil => decide
    | append_singleton l a ih =>
      rw [run_append_single]
      exact handle_flags a _ ih
  have step : (run (es ++ [e]) construct).transportSourceState = Playing →
      (run (es ++ [e]) construct).stopAudioButtonEnabled
        = (run es construct).stopAudioButtonEnabled := by
    rw [run_append_single]
    exact handle_playing_stop e _
  obtain ⟨r1, r2, r3, r4⟩ := rows es
  exact ⟨r1, r2, r3, r4, step, fun hs hp => by rw [step hp]; exact (r1 hs).2⟩

/-- Instance of the amended C4: after a Play click the controller is Starting with
Play disabled and Stop enabled, and the report that the device plays then gives
Playing with Stop still enabled. -/
theorem flags_after_events_witness :
    (run [Event.UserPlay] construct).transportSourceState = Starting
    ∧ (run ([Event.UserPlay] ++ [Event.DeviceReportsPlaying])
        construct).transportSourceState = Playing
    ∧ (run [Event.UserPlay] construct).playAudioButtonEnabled = false
    ∧ (run [Event.UserPlay] construct).stopAudioButtonEnabled = true
    ∧ (run ([Event.UserPlay] ++ [Event.DeviceReportsPlaying])
        construct).stopAudioButtonEnabled = true :=
  ⟨by decide, by decide,
   ((flags_after_events [Event.UserPlay] Event.DeviceReportsPlaying).1 (by decide)).1,
   ((flags_after_events [Event.UserPlay] Event.DeviceReportsPlaying).1 (by decide)).2,
   (flags_after_events [Event.UserPlay] Event.DeviceReportsPlaying).2.2.2.2.2
      (by decide) (by decide)⟩

/-- C5: from Stopped at position 0, a Play click gives Starting with Play disabled, Stop
enabled and one start issued; the report that the device plays gives Playing and issues
nothing; a Stop click gives Stopping with Play enabled, Stop disabled and one stop
issued; the report that the device stopped gives Stopped with the position set to 0.
The positions `p1`, `p2`, `p3` are where the host's clock has moved the position by
the time of the second, third and fourth event. -/
theorem nominal_cycle (c : Component) (h : c.transportSourceState = Stopped)
    (h0 : c.transportPosition = 0) (p1 p2 p3 : ℚ) :
    ∃ c1 c2 c3 c4 : Component,
      c1 = handle Event.UserPlay c
      ∧ c2 = handle Event.DeviceReportsPlaying { c1 with transportPosition := p1 }
      ∧ c3 = handle Event.UserStop { c2 with transportPosition := p2 }
      ∧ c4 = handle Event.DeviceReportsStopped { c3 with transportPosition := p3 }
      ∧ c1.transportSourceState = Starting
      ∧ c1.playAudioButtonEnabled = false
      ∧ c1.stopAudioButtonEnabled = true
      ∧ c1.transportCalls = c.transportCalls ++ [TransportCall.start]
      ∧ c1.transportPosition = 0
      ∧ c2.transportSourceState = Playing
      ∧ c2.transportCalls = c1.transportCalls
      ∧ c3.transportSourceState = Stopping
      ∧ c3.playAudioButtonEnabled = true
      ∧ c3.stopAudioButtonEnabled = false
      ∧ c3.transportCalls = c2.transportCalls ++ [TransportCall.stop]
      ∧ c4.transportSourceState = Stopped
      ∧ c4.transportPosition = 0
      ∧ c4.transportCalls = c3.transportCalls ++ [TransportCall.setPosition 0] := by
  refine ⟨_, _, _, _, rfl, rfl, rfl, rfl, ?_⟩
  simp [handle, playAudioButtonClicked, stopAudioButtonClicked, changeListenerCallback,
    transportSourceStateChanged, h, h0]

/-- Instance of C5 on the freshly constructed controller, the position read at 3/2,
4 and 4 seconds when the later events arrive. -/
theorem nominal_cycle_witness :
    construct.transportSourceState = Stopped ∧ construct.transportPosition = 0
    ∧ ∃ c1 c2 c3 c4 : Component,
      c1 = handle Event.UserPlay construct
      ∧ c2 = handle Event.DeviceReportsPlaying { c1 with transportPosition := 3 / 2 }
      ∧ c3 = handle Event.UserStop { c2 with transportPosition := 4 }
      ∧ c4 = handle Event.DeviceReportsStopped { c3 with transportPosition := 4 }
      ∧ c1.transportSourceState = Starting
      ∧ c1.playAudioButtonEnabled = false
      ∧ c1.stopAudioButtonEnabled = true
      ∧ c1.transportCalls = construct.transportCalls ++ [TransportCall.start]
      ∧ c1.transportPosition = 0
      ∧ c2.transportSourceState = Playing
      ∧ c2.transportCalls = c1.transportCalls
      ∧ c3.transportSourceState = Stopping
      ∧ c3.playAudioButtonEnabled = true
      ∧ c3.stopAudioButtonEnabled = false
      ∧ c3.transportCalls = c2.transportCalls ++ [TransportCall.stop]
      ∧ c4.transportSourceState = Stopped
      ∧ c4.transportPosition = 0
      ∧ c4.transportCalls = c3.transportCalls ++ [TransportCall.setPosition 0] :=
  ⟨rfl, rfl, nominal_cycle construct rfl rfl (3 / 2) 4 4⟩

/-! ## Opening a file: theorems -/

/-- C6: a successful open ends in Stopped at position 0 whatever the state and the
position before, for a transport whose `setSource` resets the position to 0, which is
what the library documents for `AudioTransportSource::setSource`.  The new reader
becomes the source of the transport and of `playSource`, the file the source of the
thumbnail.  When the state before was not Stopped the component itself calls
`setPosition (0.0)` after `setSource`; when it was already Stopped the request for
Stopped is dropped and `setSource` is the only call made on the transport. -/
theorem open_success (audioFile : AudioFile) (reader : AudioFormatReader)
    (createReaderFor : AudioFile → Option AudioFormatReader) (afterSetSource : ℚ → ℚ)
    (c : Component) (h : createReaderFor audioFile = some reader)
    (hrewind : ∀ p, afterSetSource p = 0) :
    (openTextButtonClicked (some audioFile) createReaderFor afterSetSource
        c).transportSourceState = Stopped
    ∧ (openTextButtonClicked (some audioFile) createReaderFor afterSetSource
        c).transportPosition = 0
    ∧ (openTextButtonClicked (some audioFile) createReaderFor afterSetSource
        c).playSource = some reader
    ∧ (openTextButtonClicked (some audioFile) createReaderFor afterSetSource
        c).transportSourceReader = some reader
    ∧ (openTextButtonClicked (some audioFile) createReaderFor afterSetSource
        c).thumbnailSource = some audioFile
    ∧ (c.transportSourceState ≠ Stopped →
        (openTextButtonClicked (some audioFile) createReaderFor afterSetSource
            c).transportCalls
          = c.transportCalls
            ++ [TransportCall.setSource reader, TransportCall.setPosition 0])
    ∧ (c.transportSourceState = Stopped →
        (openTextButtonClicked (some audioFile) createReaderFor afterSetSource
            c).transportCalls
          = c.transportCalls ++ [TransportCall.setSource reader]) := by
  by_cases hs : c.transportSourceState = Stopped
  · simp [openTextButtonClicked, h, transportSourceStateChanged, hs, hrewind]
  · have hs2 : ¬ Stopped = c.transportSourceState := fun e => hs e.symm
    simp [openTextButtonClicked, h, transportSourceStateChanged, hs, hs2]

/-- Instance of C6: a file opened while Playing at 7/2 seconds, and a file opened on
the freshly constructed, Stopped controller. -/
theorem open_success_witness :
    (fun _ => some 7 : AudioFile → Option AudioFormatReader) 1 = some 7
    ∧ (∀ p : ℚ, (fun _ => 0 : ℚ → ℚ) p = 0)
    ∧ ({ run [Event.UserPlay, Event.DeviceReportsPlaying] construct with
          transportPosition := 7 / 2 } : Component).transportSourceState = Playing
    ∧ (openTextButtonClicked (some 1) (fun _ => some 7) (fun _ => 0)
        { run [Event.UserPlay, Event.DeviceReportsPlaying] construct with
          transportPosition := 7 / 2 }).transportSourceState = Stopped
    ∧ (openTextButtonClicked (some 1) (fun _ => some 7) (fun _ => 0)
        { run [Event.UserPlay, Event.DeviceReportsPlaying] construct with
          transportPosition := 7 / 2 }).transportPosition = 0
    ∧ (openTextButtonClicked (some 1) (fun _ => some 7) (fun _ => 0)
        construct).transportSourceState = Stopped
    ∧ (openTextButtonClicked (some 1) (fun _ => some 7) (fun _ => 0)
        construct).transportPosition = 0 :=
  ⟨rfl, fun _ => rfl, by decide,
   (open_success 1 7 (fun _ => some 7) (fun _ => 0)
      { run [Event.UserPlay, Event.DeviceReportsPlaying] construct with
        transportPosition := 7 / 2 } rfl (fun _ => rfl)).1,
   (open_success 1 7 (fun _ => some 7) (fun _ => 0)
      { run [Event.UserPlay, Event.DeviceReportsPlaying] construct with
        transportPosition := 7 / 2 } rfl (fun _ => rfl)).2.1,
   (open_success 1 7 (fun _ => some 7) (fun _ => 0) construct rfl (fun _ => rfl)).1,
   (open_success 1 7 (fun _ => some 7) (fun _ => 0) construct rfl (fun _ => rfl)).2.1⟩

/-- C7, as stated, fails in its last part: when the decoder gives no reader the caller
is handed no error, `OpenError::Unreadable` or other. -/
theorem open_failure_reports_nothing :
    openTextButtonClicked_reported (some 1) (fun _ => none) = none
    ∧ openTextButtonClicked_reported (some 1) (fun _ => none)
        ≠ some OpenError.Unreadable := by
  decide

/-- C7, amended: when the decoder gives no reader, the whole component is left as it
was (playback state, button flags, `playSource`, the transport's source, position and
calls, the thumbnail's source), exactly as when the chooser is cancelled, and no error
is handed to the caller. -/
theorem open_failure (audioFile : AudioFile)
    (createReaderFor : AudioFile → Option AudioFormatReader) (afterSetSource : ℚ → ℚ)
    (c : Component) (h : createReaderFor audioFile = none) :
    openTextButtonClicked (some audioFile) createReaderFor afterSetSource c = c
    ∧ openTextButtonClicked (some audioFile) createReaderFor afterSetSource c
        = openTextButtonClicked none createReaderFor afterSetSource c
    ∧ openTextButtonClicked_reported (some audioFile) createReaderFor = none := by
  simp [openTextButtonClicked, openTextButtonClicked_reported, h]

/-- Instance of the amended C7 while Playing. -/
theorem open_failure_witness :
    (fun _ => none : AudioFile → Option AudioFormatReader) 1 = none
    ∧ openTextButtonClicked (some 1) (fun _ => none) (fun p => p)
        (run [Event.UserPlay, Event.DeviceReportsPlaying] construct)
      = run [Event.UserPlay, Event.DeviceReportsPlaying] construct :=
  ⟨rfl, (open_failure 1 (fun _ => none) (fun p => p)
      (run [Event.UserPlay, Event.DeviceReportsPlaying] construct) rfl).1⟩

/-! ## Painting: theorems -/

theorem drawPosition_exact (thumbnailBounds : Rectangle) (audioLength audioPosition : ℚ)
    (h : audioLength ≠ 0) :
    drawPosition id thumbnailBounds audioLength audioPosition
      = some (audioPosition / audioLength * (thumbnailBounds.w : ℚ)
          + (thumbnailBounds.x : ℚ)) := by
  simp [drawPosition, floatDiv, h, Rectangle.getWidth, Rectangle.getX]

theorem RoundsLikeFloat.within (fl : ℚ → ℚ) (hfl : RoundsLikeFloat fl) (x : ℚ)
    (h1 : 1 ≤ x) (h2 : x ≤ 2 ^ 100) : x / 2 ≤ fl x ∧ fl x ≤ 2 * x := by
  have h := abs_le.mp (hfl x h1 h2)
  have hx : x / 2 ^ 24 ≤ x / 2 := by
    apply div_le_div_of_nonneg_left (by linarith) (by norm_num) (by norm_num)
  constructor <;> linarith [h.1, h.2]

theorem drawPosition_rounded_999_of_10 (fl : ℚ → ℚ) (hfl : RoundsLikeFloat fl) :
    ∃ v, drawPosition fl ⟨10, 600, 380, 480⟩ (fl 10) (fl 999) = some v ∧ 390 < v := by
  have hP := RoundsLikeFloat.within fl hfl 999 (by norm_num) (by norm_num)
  have hL := RoundsLikeFloat.within fl hfl 10 (by norm_num) (by norm_num)
  have hW := RoundsLikeFloat.within fl hfl 380 (by norm_num) (by norm_num)
  have hLpos : (0 : ℚ) < fl 10 := by linarith [hL.1]
  have hq1 : 20 ≤ fl 999 / fl 10 := by
    rw [le_div_iff₀ hLpos]; linarith [hP.1, hL.2]
  have hq2 : fl 999 / fl 10 ≤ 400 := by
    rw [div_le_iff₀ hLpos]; linarith [hP.2, hL.1]
  have hQ := RoundsLikeFloat.within fl hfl (fl 999 / fl 10) (by linarith)
    (le_trans hq2 (by norm_num))
  have hm1 : 1900 ≤ fl (fl 999 / fl 10) * fl 380 := by
    nlinarith [hQ.1, hW.1]
  have hm2 : fl (fl 999 / fl 10) * fl 380 ≤ 608000 := by
    nlinarith [hQ.1, hQ.2, hW.1, hW.2]
  have hM := RoundsLikeFloat.within fl hfl (fl (fl 999 / fl 10) * fl 380) (by linarith)
    (le_trans hm2 (by norm_num))
  have hS := RoundsLikeFloat.within fl hfl (fl (fl (fl 999 / fl 10) * fl 380) + fl 10)
    (by linarith [hM.1]) (le_trans (by linarith [hM.2, hL.2] :
      fl (fl (fl 999 / fl 10) * fl 380) + fl 10 ≤ 1216020) (by norm_num))
  refine ⟨fl (fl (fl (fl 999 / fl 10) * fl 380) + fl 10), ?_, ?_⟩
  · simp [drawPosition, floatDiv, ne_of_gt hLpos, Rectangle.getWidth, Rectangle.getX]
  · linarith [hS.1, hM.1]

/-- C8, as stated, fails: for bounds with left edge 10 and width 380, position 999 and
total length 10 the marker is drawn at x = 37972 in exact arithmetic, far right of the
edge at 390; and under any rounding to `float` the marker stays right of 390. -/
theorem playhead_not_clamped :
    DrawInstruction.drawLine (some 37972) 600 (some 37972) 1080 2
        ∈ paintIfFileLoaded id ⟨10, 600, 380, 480⟩ 10 999
    ∧ ¬ ((37972 : ℚ) ≤ 10 + 380)
    ∧ DrawInstruction.drawLine (some 390) 600 (some 390) 1080 2
        ∉ paintIfFileLoaded id ⟨10, 600, 380, 480⟩ 10 999
    ∧ RoundsLikeFloat id
    ∧ ∀ fl : ℚ → ℚ, RoundsLikeFloat fl →
        ∃ v, DrawInstruction.drawLine (some v) (fl 600) (some v) (fl 1080) 2
            ∈ paintIfFileLoaded fl ⟨10, 600, 380, 480⟩ 10 999
          ∧ 390 < v := by
  have hex : drawPosition id ⟨10, 600, 380, 480⟩ 10 999 = some 37972 := by
    rw [drawPosition_exact _ _ _ (by norm_num)]; norm_num
  refine ⟨?_, by norm_num, ?_, ?_, ?_⟩
  · simp [paintIfFileLoaded, hex, Rectangle.getY, Rectangle.getBottom]
  · simp [paintIfFileLoaded, hex, Rectangle.getY, Rectangle.getBottom]
  · intro x h1 _
    simp only [id, sub_self, abs_zero]
    positivity
  · intro fl hfl
    obtain ⟨v, hv, hlt⟩ := drawPosition_rounded_999_of_10 fl hfl
    refine ⟨v, ?_, hlt⟩
    simp [paintIfFileLoaded, hv, Rectangle.getY, Rectangle.getBottom]

/-- C8, amended: in exact arithmetic the marker is drawn at
`position / totalDuration * width + left` without clamping; for a width of at least 0
and a total length above 0 it lies between `left` and `left + width` when the position
lies between 0 and the total length, and for a width above 0 only then. -/
theorem playhead_in_bounds (thumbnailBounds : Rectangle) (totalLength currentPosition : ℚ)
    (hw : 0 ≤ thumbnailBounds.w) (ht : 0 < totalLength) :
    ∃ v : ℚ,
      DrawInstruction.drawLine (some v) (thumbnailBounds.y : ℚ) (some v)
          ((thumbnailBounds.y + thumbnailBounds.h : ℤ) : ℚ) 2
        ∈ paintIfFileLoaded id thumbnailBounds totalLength currentPosition
      ∧ v = currentPosition / totalLength * (thumbnailBounds.w : ℚ)
          + (thumbnailBounds.x : ℚ)
      ∧ (0 ≤ currentPosition ∧ currentPosition ≤ totalLength →
          (thumbnailBounds.x : ℚ) ≤ v
          ∧ v ≤ (thumbnailBounds.x : ℚ) + (thumbnailBounds.w : ℚ))
      ∧ (0 < thumbnailBounds.w →
          (thumbnailBounds.x : ℚ) ≤ v
          ∧ v ≤ (thumbnailBounds.x : ℚ) + (thumbnailBounds.w : ℚ) →
          0 ≤ currentPosition ∧ currentPosition ≤ totalLength) := by
  have hwq : (0 : ℚ) ≤ (thumbnailBounds.w : ℚ) := by exact_mod_cast hw
  refine ⟨_, ?_, rfl, ?_, ?_⟩
  · simp [paintIfFileLoaded, drawPosition_exact _ _ _ (ne_of_gt ht), Rectangle.getY,
      Rectangle.getBottom]
  · rintro ⟨h0, h1⟩
    have hq0 : 0 ≤ currentPosition / totalLength := div_nonneg h0 (le_of_lt ht)
    have hq1 : currentPosition / totalLength ≤ 1 := (div_le_one ht).mpr h1
    constructor
    · nlinarith [mul_nonneg hq0 hwq]
    · nlinarith [mul_le_mul_of_nonneg_right hq1 hwq]
  · rintro hpos ⟨h0, h1⟩
    have hwp : (0 : ℚ) < (thumbnailBounds.w : ℚ) := by exact_mod_cast hpos
    have hq0 : 0 ≤ currentPosition / totalLength := by
      by_contra hneg
      push_neg at hneg
      nlinarith [mul_neg_of_neg_of_pos hneg hwp]
    have hq1 : currentPosition / totalLength ≤ 1 := by
      by_contra hgt
      push_neg at hgt
      nlinarith [mul_lt_mul_of_pos_right hgt hwp]
    constructor
    · have := mul_nonneg hq0 (le_of_lt ht)
      rwa [div_mul_cancel₀ _ (ne_of_gt ht)] at this
    · exact (div_le_one ht).mp hq1

/-- Instance of the amended C8: halfway through a file of 10 seconds the marker is at
the middle of the bounds, x = 200. -/
theorem playhead_in_bounds_witness :
    (0 : ℤ) ≤ (⟨10, 600, 380, 480⟩ : Rectangle).w ∧ (0 : ℚ) < 10
    ∧ ∃ v : ℚ,
      DrawInstruction.drawLine (some v) 600 (some v) 1080 2
        ∈ paintIfFileLoaded id ⟨10, 600, 380, 480⟩ 10 5
      ∧ v = 200 := by
  refine ⟨by decide, by norm_num, ?_⟩
  obtain ⟨v, hmem, hv, -, -⟩ :=
    playhead_in_bounds ⟨10, 600, 380, 480⟩ 10 5 (by decide) (by norm_num)
  refine ⟨v, ?_, ?_⟩
  · norm_num at hmem
    exact hmem
  · rw [hv]; norm_num

/-- C9, as stated, fails: a thumbnail that reports two channels and a total length of 0
makes `paint` run `paintIfFileLoaded`; the quotient is formed with divisor 0, the marker
has no finite x coordinate, and the placeholder text is not drawn. -/
theorem paint_divides_by_zero_length :
    paint id 400 600 2 0 0
      = DrawInstruction.fillAll Colour.background
          :: paintIfFileLoaded id ⟨10, 600, 380, 480⟩ 0 0
    ∧ floatDiv id 0 0 = none
    ∧ DrawInstruction.drawLine none 600 none 1080 2 ∈ paint id 400 600 2 0 0
    ∧ (∀ area justification n,
        DrawInstruction.drawFittedText "No File Loaded" area justification n
          ∉ paint id 400 600 2 0 0) := by
  refine ⟨?_, ?_, ?_, ?_⟩
  · simp [paint]
  · simp [floatDiv]
  · simp [paint, paintIfFileLoaded, drawPosition, floatDiv, Rectangle.getY,
      Rectangle.getBottom]
  · simp [paint, paintIfFileLoaded]

/-- C9, amended: `paint` draws the placeholder exactly when the thumbnail reports no
channels, whatever the total length; with one channel or more it runs
`paintIfFileLoaded`, where the marker has a finite x coordinate exactly when the total
length, as a `float`, is not 0. -/
theorem paint_branches_on_channels (fl : ℚ → ℚ) (width height : ℤ) (numChannels : Nat)
    (totalLength currentPosition : ℚ) :
    (numChannels = 0 →
      paint fl width height numChannels totalLength currentPosition
        = DrawInstruction.fillAll Colour.background
            :: paintIfNoFileLoaded ⟨10, 600, width - 20, height - 120⟩)
    ∧ (numChannels ≠ 0 →
      paint fl width height numChannels totalLength currentPosition
        = DrawInstruction.fillAll Colour.background
            :: paintIfFileLoaded fl ⟨10, 600, width - 20, height - 120⟩ totalLength
                currentPosition)
    ∧ (DrawInstruction.drawFittedText "No File Loaded"
          ⟨10, 600, width - 20, height - 120⟩ Justification.centred 1
        ∈ paint fl width height numChannels totalLength currentPosition
        ↔ numChannels = 0)
    ∧ (numChannels ≠ 0 →
        ((∃ v y1 y2 t, DrawInstruction.drawLine (some v) y1 (some v) y2 t
            ∈ paint fl width height numChannels totalLength currentPosition)
          ↔ fl totalLength ≠ 0)) := by
  refine ⟨fun h => ?_, fun h => ?_, ?_, fun h => ?_⟩
  · simp [paint, h]
  · simp [paint, h]
  · by_cases h : numChannels = 0
    · simp [paint, h, paintIfNoFileLoaded]
    · simp [paint, h, paintIfFileLoaded]
  · by_cases hz : fl totalLength = 0
    · simp [paint, h, paintIfFileLoaded, drawPosition, floatDiv, hz]
    · simp [paint, h, paintIfFileLoaded, drawPosition, floatDiv, hz]

/-- Instance of the amended C9: no channels gives the placeholder, also when a total
length of 10 seconds is reported. -/
theorem paint_branches_on_channels_witness :
    (0 : Nat) = 0
    ∧ paint id 400 600 0 10 0
        = [DrawInstruction.fillAll Colour.background,
           DrawInstruction.setColour Colour.darkgrey,
           DrawInstruction.fillRect ⟨10, 600, 380, 480⟩,
           DrawInstruction.setColour Colour.white,
           DrawInstruction.drawFittedText "No File Loaded" ⟨10, 600, 380, 480⟩
             Justification.centred 1] :=
  ⟨rfl, (paint_branches_on_channels id 400 600 0 10 0).1 rfl⟩

/-- C10: for a total length above 0 and every position, so also every position between
0 and the total length, `paintIfFileLoaded` in exact arithmetic draws a line from
`(p, top)` to `(p, bottom)` with `p = position / totalDuration * width + left`, and it
is the only line drawn. -/
theorem playhead_line (thumbnailBounds : Rectangle) (totalLength currentPosition : ℚ)
    (ht : 0 < totalLength) :
    DrawInstruction.drawLine
        (some (currentPosition / totalLength * (thumbnailBounds.w : ℚ)
          + (thumbnailBounds.x : ℚ)))
        (thumbnailBounds.y : ℚ)
        (some (currentPosition / totalLength * (thumbnailBounds.w : ℚ)
          + (thumbnailBounds.x : ℚ)))
        ((thumbnailBounds.y : ℚ) + (thumbnailBounds.h : ℚ)) 2
      ∈ paintIfFileLoaded id thumbnailBounds totalLength currentPosition
    ∧ (∀ x1 y1 x2 y2 t,
        DrawInstruction.drawLine x1 y1 x2 y2 t
          ∈ paintIfFileLoaded id thumbnailBounds totalLength currentPosition →
        x1 = some (currentPosition / totalLength * (thumbnailBounds.w : ℚ)
              + (thumbnailBounds.x : ℚ))
        ∧ x2 = x1 ∧ y1 = (thumbnailBounds.y : ℚ)
        ∧ y2 = (thumbnailBounds.y : ℚ) + (thumbnailBounds.h : ℚ)) := by
  have hne : totalLength ≠ 0 := ne_of_gt ht
  constructor
  · simp [paintIfFileLoaded, drawPosition_exact _ _ _ hne, Rectangle.getY,
      Rectangle.getBottom]
  · intro x1 y1 x2 y2 t hmem
    simp [paintIfFileLoaded, drawPosition_exact _ _ _ hne, Rectangle.getY,
      Rectangle.getBottom] at hmem
    obtain ⟨hx1, hy1, hx2, hy2, -⟩ := hmem
    exact ⟨hx1, by rw [hx1, hx2], hy1, hy2⟩

/-- Instance of C10: three seconds into a file of 12 seconds, bounds of width 380 at
left edge 10, the line is at x = 105 from y = 600 to y = 1080. -/
theorem playhead_line_witness :
    (0 : ℚ) < 12 ∧ (0 : ℚ) ≤ 3 ∧ (3 : ℚ) ≤ 12
    ∧ DrawInstruction.drawLine (some 105) 600 (some 105) 1080 2
        ∈ paintIfFileLoaded id ⟨10, 600, 380, 480⟩ 12 3 := by
  refine ⟨by norm_num, by norm_num, by norm_num, ?_⟩
  have h := (playhead_line ⟨10, 600, 380, 480⟩ 12 3 (by norm_num)).1
  norm_num at h
  exact h

end MainComponent
